import Mathlib

/-!
Verification of the Bills-Analyst-Agent frontend against its specification.

The repository source under verification is the React frontend
(`frontend/src`): the chat panel (`ChatPanel.jsx`), the chat input
(`ChatInput`), the dashboard (`ResultsPanel.jsx`), the category chart
(`CategoryChart`), and the API client (`services/api.js`).  The backend
(orchestrator, analytics service) is not part of the given sources; where a
claim depends on it, a definition is modelled from the spec and marked as
such in its doc comment.

Modelling conventions:
- JavaScript strings are Lean `String`s; optional / possibly-absent JSON
  fields are `Option`s (`none` models `undefined`).
- Monetary amounts are exact integers in cents (the spec allows only the
  standard two-decimal currency presentation at the boundary; aggregation
  itself is exact).
- Asynchronous request outcomes are `Except ApiError r`: `Except.ok`
  models a resolved promise, `Except.error` a rejected one.
- React state updates are modelled as explicit state-passing functions.
-/

/-- One entry of the chat message list kept by `ChatPanel` (field `type` of
the JS object is called `mtype` here because `type` is a Lean keyword). -/
structure ChatMsg where
  mtype : String
  content : String
  timestamp : String
deriving DecidableEq, Repr

/-- The body of a successful `POST /agent/chat` response as consumed by
`handleSendMessage` in `ChatPanel.jsx`: `response.response`,
`response.intent`, `response.action_successful`, `response.timestamp`.
Fields other than the reply text may be absent in the JSON. -/
structure ChatResponse where
  response : String
  intent : Option String
  action_successful : Option Bool
  timestamp : Option String
deriving DecidableEq, Repr

/-- An axios error object as inspected by the catch block of
`handleSendMessage`: `error.code`, `error.response?.status` (with `none`
modelling `!error.response`), and the diagnostic message text that is only
ever passed to `console.error`. -/
structure ApiError where
  code : Option String
  responseStatus : Option Nat
  diagnostic : String
deriving DecidableEq, Repr

/-- The payload handed to `onDataUpdate` on the success path of
`handleSendMessage`: `{ intent: response.intent, actionSuccessful:
response.action_successful }`. -/
structure SidePayload where
  intent : Option String
  actionSuccessful : Option Bool
deriving DecidableEq, Repr

/-- The `ChatPanel` component state: the `messages` list and the `error`
banner state. -/
structure ChatState where
  messages : List ChatMsg
  error : Option String
deriving DecidableEq, Repr

/-- The error-message selection of the catch block in `handleSendMessage`
(`ChatPanel.jsx` lines 78-86): a default message, overridden for
`ECONNABORTED`, HTTP 500, and missing response, in that order. -/
def errorMessageFor (e : ApiError) : String :=
  if e.code = some "ECONNABORTED" then
    "Request timed out. Please check if the backend server is running."
  else if e.responseStatus = some 500 then
    "Server error. Please try again later."
  else if e.responseStatus = none then
    "Cannot connect to server. Please make sure the backend is running on http://localhost:8000"
  else
    "Sorry, I encountered an error. Please try again."

/-- The four fixed strings the catch block can show; every error reply is
one of these. -/
def genericErrorMessages : List String :=
  [ "Sorry, I encountered an error. Please try again.",
    "Request timed out. Please check if the backend server is running.",
    "Server error. Please try again later.",
    "Cannot connect to server. Please make sure the backend is running on http://localhost:8000" ]

/-- `handleSendMessage` of `ChatPanel.jsx`: clears the error banner, appends
the user message, then on a resolved request appends the AI reply (timestamp
falling back to the current time) and emits the `onDataUpdate` payload; on a
rejected request appends a generic error reply, sets the error banner, and
emits no payload.  `now` is the ISO timestamp taken at this turn. -/
def handleSendMessage (now : String) (st : ChatState) (userText : String)
    (result : Except ApiError ChatResponse) : ChatState × Option SidePayload :=
  let withUser : List ChatMsg :=
    st.messages ++ [{ mtype := "human", content := userText, timestamp := now }]
  match result with
  | Except.ok r =>
      ({ messages := withUser ++
           [{ mtype := "ai", content := r.response, timestamp := r.timestamp.getD now }],
         error := none },
       some { intent := r.intent, actionSuccessful := r.action_successful })
  | Except.error e =>
      let msg := errorMessageFor e
      ({ messages := withUser ++ [{ mtype := "ai", content := msg, timestamp := now }],
         error := some msg },
       none)

/-- The dashboard refresh guard of `ResultsPanel.jsx` lines 28-33: the effect
reloads the data exactly when `lastChatUpdate?.actionSuccessful` is truthy. -/
def dashboardReloads (lastChatUpdate : Option SidePayload) : Bool :=
  match lastChatUpdate with
  | some p => p.actionSuccessful.getD false
  | none => false

/-- C1: for every completed chat turn the side channel
`{intent, action_successful}` reaches the dashboard on the success path, and
the dashboard reloads exactly when `action_successful` is `true`; a turn
whose side channel carries `false` or nothing (including every failed turn,
which emits no payload at all) never triggers a reload. -/
theorem c1_side_channel_refresh (now userText : String) (st : ChatState)
    (result : Except ApiError ChatResponse) :
    (∀ r, result = Except.ok r →
      (handleSendMessage now st userText result).2 =
        some { intent := r.intent, actionSuccessful := r.action_successful }) ∧
    (dashboardReloads (handleSendMessage now st userText result).2 = true ↔
      ∃ r, result = Except.ok r ∧ r.action_successful = some true) := by
  constructor
  · intro r hr
    subst hr
    rfl
  · cases result with
    | ok r =>
        simp only [handleSendMessage, dashboardReloads]
        constructor
        · intro h
          refine ⟨r, rfl, ?_⟩
          cases has : r.action_successful with
          | none => simp [has] at h
          | some b =>
              cases b with
              | false => simp [has] at h
              | true => rfl
        · rintro ⟨r', hr', hsucc⟩
          cases hr'
          simp [hsucc]
    | error e =>
        simp only [handleSendMessage, dashboardReloads]
        constructor
        · intro h
          simp at h
        · rintro ⟨r', hr', -⟩
          cases hr'

/-- Witness for C1 at a concrete successful response with
`action_successful = true`. -/
theorem c1_side_channel_refresh_witness :
    (handleSendMessage "t0" { messages := [], error := none } "add my bill"
        (Except.ok { response := "Added.", intent := some "add_bill",
                     action_successful := some true, timestamp := some "t1" })).2 =
      some { intent := some "add_bill", actionSuccessful := some true } ∧
    dashboardReloads
      (handleSendMessage "t0" { messages := [], error := none } "add my bill"
        (Except.ok { response := "Added.", intent := some "add_bill",
                     action_successful := some true, timestamp := some "t1" })).2 = true := by
  refine ⟨?_, ?_⟩
  · exact (c1_side_channel_refresh "t0" "add my bill" { messages := [], error := none }
      (Except.ok { response := "Added.", intent := some "add_bill",
                   action_successful := some true, timestamp := some "t1" })).1 _ rfl
  · exact (c1_side_channel_refresh "t0" "add my bill" { messages := [], error := none }
      (Except.ok { response := "Added.", intent := some "add_bill",
                   action_successful := some true, timestamp := some "t1" })).2.mpr
      ⟨_, rfl, rfl⟩

/-- C2: every failed chat request yields a reply drawn from the fixed list
of generic error strings, chosen only by the error classification (code /
status), never from the diagnostic text; the error path emits no
`onDataUpdate` payload, so a failed turn is never reported to the dashboard
as a successful action. -/
theorem c2_error_path_generic (now userText : String) (st : ChatState) (e : ApiError) :
    (handleSendMessage now st userText (Except.error e)).2 = none ∧
    errorMessageFor e ∈ genericErrorMessages ∧
    (∀ d : String, errorMessageFor { e with diagnostic := d } = errorMessageFor e) ∧
    (handleSendMessage now st userText (Except.error e)).1.messages =
      st.messages ++
        [{ mtype := "human", content := userText, timestamp := now },
         { mtype := "ai", content := errorMessageFor e, timestamp := now }] := by
  refine ⟨rfl, ?_, fun d => rfl, by simp [handleSendMessage]⟩
  unfold errorMessageFor genericErrorMessages
  split
  · simp
  · split
    · simp
    · split
      · simp
      · simp

/-- The browser-side persistent state seen by `handleClearChat` and the
request interceptor: the chat messages, the error banner, and the
`localStorage` entry `sessionId`. -/
structure FrontendState where
  messages : List ChatMsg
  error : Option String
  sessionId : Option String
deriving DecidableEq, Repr

/-- `generateSessionId` of `services/api.js`: a fresh identifier built from
a random suffix (the `Math.random().toString(36).substr(2, 9)` part is the
`rnd` argument); the identifier is also stored. -/
def generateSessionId (rnd : String) : String := "session_" ++ rnd

/-- `handleClearChat` of `ChatPanel.jsx` lines 101-113.  When a session id
is stored, `agentAPI.clearSession` is awaited first; `clearOk` tells whether
that call resolved.  If it rejects, the catch block only logs and none of
the state updates run.  Otherwise the messages are emptied, the error
banner cleared, and the stored session id removed. -/
def handleClearChat (clearOk : Bool) (st : FrontendState) : FrontendState :=
  match st.sessionId with
  | some _ =>
      if clearOk then { messages := [], error := none, sessionId := none }
      else st
  | none => { messages := [], error := none, sessionId := none }

/-- The request interceptor of `services/api.js` lines 16-23: reads the
stored session id, generating (and storing) a fresh one when none is
present; returns the new stored value and the `X-Session-ID` header sent. -/
def requestInterceptor (rnd : String) (stored : Option String) :
    Option String × String :=
  match stored with
  | some sid => (some sid, sid)
  | none => (some (generateSessionId rnd), generateSessionId rnd)

/-- C3 counterexample: with one stored message and a stored session id, a
clear whose `clearSession` request fails leaves the history non-empty and
the old identifier in place, so clearing does not always empty the history
and remove the identifier. -/
theorem c3_clear_counterexample :
    (handleClearChat false
        { messages := [{ mtype := "human", content := "hi", timestamp := "t0" }],
          error := none, sessionId := some "session_old" }).messages ≠ [] ∧
    (handleClearChat false
        { messages := [{ mtype := "human", content := "hi", timestamp := "t0" }],
          error := none, sessionId := some "session_old" }).sessionId =
      some "session_old" := by
  constructor
  · simp [handleClearChat]
  · rfl

/-- C3 (amended): when the `clearSession` call succeeds, or no session id
was stored, clearing empties the visible history and removes the stored
identifier; the next request then finds no stored identifier, so the
interceptor generates and stores a brand-new one, and (as long as the fresh
identifier differs from the old one) the request cannot carry the old
session identifier. -/
theorem c3_clear_session (st : FrontendState) (clearOk : Bool) (rnd : String)
    (h : clearOk = true ∨ st.sessionId = none) :
    (handleClearChat clearOk st).messages = [] ∧
    (handleClearChat clearOk st).sessionId = none ∧
    requestInterceptor rnd (handleClearChat clearOk st).sessionId =
      (some (generateSessionId rnd), generateSessionId rnd) ∧
    (∀ old, st.sessionId = some old → generateSessionId rnd ≠ old →
      (requestInterceptor rnd (handleClearChat clearOk st).sessionId).2 ≠ old) := by
  have hclear : handleClearChat clearOk st =
      { messages := [], error := none, sessionId := none } := by
    rcases h with h | h
    · subst h
      unfold handleClearChat
      cases st.sessionId <;> simp
    · unfold handleClearChat
      rw [h]
  refine ⟨by rw [hclear], by rw [hclear], by rw [hclear]; rfl, ?_⟩
  intro old _ hne
  rw [hclear]
  exact hne

/-- Witness for C3 (amended): a successful clear of a concrete state
followed by a request with a fresh random suffix. -/
theorem c3_clear_session_witness :
    (handleClearChat true
        { messages := [{ mtype := "human", content := "hi", timestamp := "t0" }],
          error := none, sessionId := some "session_old" }).messages = [] ∧
    (requestInterceptor "abc123xyz"
        (handleClearChat true
          { messages := [{ mtype := "human", content := "hi", timestamp := "t0" }],
            error := none, sessionId := some "session_old" }).sessionId).2 ≠
      "session_old" := by
  have h := c3_clear_session
    { messages := [{ mtype := "human", content := "hi", timestamp := "t0" }],
      error := none, sessionId := some "session_old" } true "abc123xyz" (Or.inl rfl)
  exact ⟨h.1, h.2.2.2 "session_old" rfl (by decide)⟩

/-- A bill as the dashboard and the (spec-modelled) backend see it:
monetary `amount` in exact cents, `dueDate` as a day number, `status` a
string in `{pending, paid}`, `category` the referenced category name. -/
structure Bill where
  name : String
  amount : Int
  dueDate : Int
  status : String
  category : String
deriving DecidableEq, Repr

/-- Sum of the amounts of a list of bills, in cents. -/
def billsSum (bills : List Bill) : Int := (bills.map Bill.amount).sum

theorem billsSum_nil : billsSum [] = 0 := rfl

theorem billsSum_cons (b : Bill) (bs : List Bill) :
    billsSum (b :: bs) = b.amount + billsSum bs := by
  simp [billsSum]

/-- `billsAPI.getUpcoming` URL construction (`services/api.js` line 149). -/
def getUpcomingUrl (days : Nat) : String :=
  "/bills/upcoming/list?days=" ++ toString days

/-- `billsAPI.getUpcoming` of `services/api.js` lines 147-155: the `days`
parameter defaults to 30 when the caller passes none. -/
def getUpcoming (days : Option Nat) : String := getUpcomingUrl (days.getD 30)

/-- The upcoming-bills request issued by `loadData` in `ResultsPanel.jsx`
line 45: `billsAPI.getUpcoming(30)`. -/
def resultsPanelUpcomingRequest : String := getUpcoming (some 30)

/-- Modelled from the spec: the backend `QueryUpcoming` operation is not in
the given sources; per the spec it "takes an implicit or explicit
day-window (default 30) and filters to status=pending with due date within
[now, now+window]". -/
def upcomingQuery (now window : Int) (bills : List Bill) : List Bill :=
  bills.filter (fun b =>
    b.status == "pending" && decide (now ≤ b.dueDate) && decide (b.dueDate ≤ now + window))

/-- C4: `getUpcoming` called with no argument requests `days=30`, the
dashboard's upcoming view requests exactly that 30-day window, and the
(spec-modelled) window query keeps exactly the pending bills due within
[now, now+30]. -/
theorem c4_upcoming_default_window (now : Int) (bills : List Bill) :
    getUpcoming none = getUpcomingUrl 30 ∧
    resultsPanelUpcomingRequest = getUpcomingUrl 30 ∧
    (∀ b, b ∈ upcomingQuery now 30 bills ↔
      b ∈ bills ∧ b.status = "pending" ∧ now ≤ b.dueDate ∧ b.dueDate ≤ now + 30) := by
  refine ⟨rfl, rfl, fun b => ?_⟩
  simp only [upcomingQuery, List.mem_filter, Bool.and_eq_true, beq_iff_eq,
    decide_eq_true_eq]
  tauto

/-- Monthly summary payload of `GET /analytics/summary` as the dashboard
consumes it: `total_amount` (cents), `total_bills`, and the
`category_breakdown` mapping category name to summed amount. -/
structure Summary where
  total_amount : Int
  total_bills : Nat
  category_breakdown : List (String × Int)
deriving DecidableEq, Repr

/-- Modelled from the spec: the backend `GetSummary` aggregation is not in
the given sources; per the spec it computes "{total_amount = Σ amount,
total_bills = count, category_breakdown = mapping category→Σ amount}" over
the bills of the window, with no rounding during aggregation. -/
def getSummary (bills : List Bill) : Summary :=
  { total_amount := billsSum bills,
    total_bills := bills.length,
    category_breakdown :=
      ((bills.map Bill.category).dedup).map
        (fun c => (c, billsSum (bills.filter (fun b => b.category == c)))) }

/-- The `total` computed by `CategoryChart` (`src/unnamed/part_000`-adjacent
chart component, line 13): `Object.values(categories).reduce((sum, amount)
=> sum + amount, 0)`. -/
def chartTotal (categories : List (String × Int)) : Int :=
  categories.foldl (fun sum p => sum + p.2) 0

theorem chartTotal_eq_sum_snd (categories : List (String × Int)) :
    chartTotal categories = (categories.map Prod.snd).sum := by
  suffices h : ∀ init : Int,
      categories.foldl (fun sum p => sum + p.2) init =
        init + (categories.map Prod.snd).sum by
    simpa using h 0
  induction categories with
  | nil => intro init; simp
  | cons p ps ih =>
      intro init
      simp only [List.foldl_cons, List.map_cons, List.sum_cons, ih]
      ring

theorem billsSum_filter_disjoint (p q : Bill → Bool) (bills : List Bill)
    (h : ∀ b, p b = true → q b = false) :
    billsSum (bills.filter (fun b => p b || q b)) =
      billsSum (bills.filter p) + billsSum (bills.filter q) := by
  induction bills with
  | nil => simp [billsSum]
  | cons b bs ih =>
      by_cases hp : p b = true
      · have hq : q b = false := h b hp
        simp only [List.filter_cons, hp, hq, Bool.true_or, if_true,
          Bool.false_eq_true, if_false, billsSum_cons, ih]
        ring
      · have hp' : p b = false := by
          cases hpb : p b
          · rfl
          · exact absurd hpb hp
        by_cases hqb : q b = true
        · simp only [List.filter_cons, hp', hqb, Bool.false_or, if_true,
            Bool.false_eq_true, if_false, billsSum_cons, ih]
          ring
        · have hq' : q b = false := by
            cases hqc : q b
            · rfl
            · exact absurd hqc hqb
          simp only [List.filter_cons, hp', hq', Bool.false_or,
            Bool.false_eq_true, if_false, ih]

theorem billsSum_partition_by_categories (cs : List String) (bills : List Bill)
    (hnd : cs.Nodup) :
    ((cs.map (fun c => billsSum (bills.filter (fun b => b.category == c)))).sum) =
      billsSum (bills.filter (fun b => decide (b.category ∈ cs))) := by
  induction cs with
  | nil =>
      simp [billsSum]
  | cons c cs ih =>
      have hndtail : cs.Nodup := hnd.of_cons
      have hnotmem : c ∉ cs := by
        intro hmem
        exact (List.nodup_cons.mp hnd).1 hmem
      have hdisj : ∀ b : Bill, (b.category == c) = true →
          decide (b.category ∈ cs) = false := by
        intro b hb
        have : b.category = c := beq_iff_eq.mp hb
        subst this
        simpa using hnotmem
      have hsplit := billsSum_filter_disjoint
        (fun b => b.category == c) (fun b => decide (b.category ∈ cs)) bills hdisj
      have hpred : ∀ b : Bill,
          (decide (b.category ∈ c :: cs)) =
            ((b.category == c) || decide (b.category ∈ cs)) := by
        intro b
        by_cases hbc : b.category = c
        · simp [hbc]
        · simp [List.mem_cons, hbc]
      calc ((List.map (fun c => billsSum (bills.filter (fun b => b.category == c)))
              (c :: cs)).sum)
          = billsSum (bills.filter (fun b => b.category == c)) +
              ((cs.map (fun c => billsSum
                (bills.filter (fun b => b.category == c)))).sum) := by
            simp
        _ = billsSum (bills.filter (fun b => b.category == c)) +
              billsSum (bills.filter (fun b => decide (b.category ∈ cs))) := by
            rw [ih hndtail]
        _ = billsSum (bills.filter
              (fun b => (b.category == c) || decide (b.category ∈ cs))) := hsplit.symm
        _ = billsSum (bills.filter (fun b => decide (b.category ∈ c :: cs))) := by
            congr 1
            exact List.filter_congr (fun b _ => (hpred b).symm)

/-- C5: the Total computed by the category chart is the sum of all the
mapping's values, and for the (spec-modelled) summary of any bill list the
`total_amount` equals the sum of the `category_breakdown` values exactly
(amounts are exact cents, so two-decimal display rounding is the identity),
with `total_bills` the count of the contributing bills. -/
theorem c5_summary_additivity (bills : List Bill) :
    chartTotal (getSummary bills).category_breakdown =
      ((getSummary bills).category_breakdown.map Prod.snd).sum ∧
    chartTotal (getSummary bills).category_breakdown =
      (getSummary bills).total_amount ∧
    (getSummary bills).total_bills = bills.length := by
  refine ⟨chartTotal_eq_sum_snd _, ?_, rfl⟩
  rw [chartTotal_eq_sum_snd]
  show (((((bills.map Bill.category).dedup).map
      (fun c => (c, billsSum (bills.filter (fun b => b.category == c))))).map
        Prod.snd).sum) = billsSum bills
  rw [List.map_map]
  have hnd : ((bills.map Bill.category).dedup).Nodup := List.nodup_dedup _
  have hpart := billsSum_partition_by_categories
    ((bills.map Bill.category).dedup) bills hnd
  have hall : bills.filter
      (fun b => decide (b.category ∈ (bills.map Bill.category).dedup)) = bills := by
    apply List.filter_eq_self.mpr
    intro b hb
    simp only [decide_eq_true_eq, List.mem_dedup]
    exact List.mem_map_of_mem Bill.category hb
  calc ((((bills.map Bill.category).dedup).map
        (Prod.snd ∘ fun c => (c, billsSum (bills.filter (fun b => b.category == c))))).sum)
      = ((((bills.map Bill.category).dedup).map
          (fun c => billsSum (bills.filter (fun b => b.category == c)))).sum) := rfl
    _ = billsSum (bills.filter
          (fun b => decide (b.category ∈ (bills.map Bill.category).dedup))) := hpart
    _ = billsSum bills := by rw [hall]

/-- Stats payload of `GET /analytics/stats` as the dashboard consumes it;
`payment_completion_rate` is a percentage. -/
structure Stats where
  upcoming_bills_count : Nat
  overdue_bills_count : Nat
  payment_completion_rate : Rat
deriving DecidableEq, Repr

/-- Modelled from the spec: the backend `GetStats` derivation is not in the
given sources; per the spec it derives "upcoming_bills_count (status=pending,
due within 30 days), overdue_bills_count (status=pending, due date < now),
and payment_completion_rate = paid_count / total_count for the current
window, expressed as a percentage; defined as 0 when total_count = 0". -/
def getStats (now : Int) (bills : List Bill) : Stats :=
  let total := bills.length
  let paid := (bills.filter (fun b => b.status == "paid")).length
  { upcoming_bills_count :=
      (bills.filter (fun b =>
        b.status == "pending" && decide (now ≤ b.dueDate) &&
          decide (b.dueDate ≤ now + 30))).length,
    overdue_bills_count :=
      (bills.filter (fun b => b.status == "pending" && decide (b.dueDate < now))).length,
    payment_completion_rate :=
      if total = 0 then 0 else (paid : Rat) / (total : Rat) * 100 }

/-- JavaScript `Number.prototype.toFixed(1)` for the non-negative rates at
issue: round half away from zero to one decimal and print; the rounded
tenths value is computed on the numerator/denominator as
`⌊10·r + 1/2⌋ = (20·num + den) / (2·den)`. -/
def ratToFixed1 (r : Rat) : String :=
  let n : Int := (r.num * 20 + (r.den : Int)) / (2 * (r.den : Int))
  toString (n / 10) ++ "." ++ toString (n % 10)

/-- The Payment Rate cell of `renderOverview` (`ResultsPanel.jsx` line 124):
the interpolation of `stats.payment_completion_rate?.toFixed(1) || '0.0'`
followed by a percent sign, with `none` modelling an absent field. -/
def displayRatePercent (v : Option Rat) : String :=
  (match v with
   | some r => ratToFixed1 r
   | none => "0.0") ++ "%"

/-- The count cells of `renderOverview` (`ResultsPanel.jsx` lines 110 and
117): `stats.upcoming_bills_count || 0` and `stats.overdue_bills_count || 0`
(for a present count `n`, `n || 0` is `n`, also when `n` is the falsy 0). -/
def displayCount (v : Option Nat) : Nat :=
  match v with
  | some n => n
  | none => 0

/-- C6: on zero bills the (spec-modelled) stats are rate 0, upcoming count
0, overdue count 0 — the rate is the value 0, not a division failure — and
the dashboard renders them as "0.0%" and 0; the same fallbacks render when
the fields are absent altogether. -/
theorem c6_zero_bills_stats (now : Int) :
    getStats now [] =
      { upcoming_bills_count := 0, overdue_bills_count := 0,
        payment_completion_rate := 0 } ∧
    displayRatePercent (some (getStats now []).payment_completion_rate) = "0.0%" ∧
    displayCount (some (getStats now []).upcoming_bills_count) = 0 ∧
    displayCount (some (getStats now []).overdue_bills_count) = 0 ∧
    displayRatePercent none = "0.0%" ∧
    displayCount none = 0 := by
  refine ⟨rfl, ?_, rfl, rfl, rfl, rfl⟩
  show displayRatePercent (some 0) = "0.0%"
  decide

/-- The axios instance configuration of `services/api.js` lines 7-13:
`timeout: 10000` milliseconds. -/
def apiTimeoutMs : Nat := 10000

/-- C7: every API request is bounded by the finite 10-second axios timeout,
and every chat turn — in particular a timed-out one, which the catch block
classifies by `error.code === ECONNABORTED` — still resolves to a produced
reply (exactly one AI message follows the user message) rather than
hanging. -/
theorem c7_bounded_timeout :
    apiTimeoutMs = 10000 ∧ 0 < apiTimeoutMs ∧
    (∀ (now userText : String) (st : ChatState)
        (result : Except ApiError ChatResponse),
      ∃ reply : ChatMsg, reply.mtype = "ai" ∧
        (handleSendMessage now st userText result).1.messages =
          st.messages ++
            [{ mtype := "human", content := userText, timestamp := now }, reply]) ∧
    (∀ (status : Option Nat) (d : String),
      errorMessageFor
          { code := some "ECONNABORTED", responseStatus := status, diagnostic := d } =
        "Request timed out. Please check if the backend server is running.") := by
  refine ⟨rfl, by decide, ?_, ?_⟩
  · intro now userText st result
    cases result with
    | ok r =>
        exact ⟨{ mtype := "ai", content := r.response, timestamp := r.timestamp.getD now },
          rfl, by simp [handleSendMessage]⟩
    | error e =>
        exact ⟨{ mtype := "ai", content := errorMessageFor e, timestamp := now },
          rfl, by simp [handleSendMessage]⟩
  · intro status d
    simp [errorMessageFor]

/-- C8: the client consumes exactly the documented fields of a successful
chat response: `response.response` becomes the reply content,
`response.intent` and `response.action_successful` form the side channel,
and `response.timestamp`, when present, becomes the reply timestamp. -/
theorem c8_response_fields (now userText ts : String) (st : ChatState)
    (r : ChatResponse) (h : r.timestamp = some ts) :
    (handleSendMessage now st userText (Except.ok r)).2 =
      some { intent := r.intent, actionSuccessful := r.action_successful } ∧
    (handleSendMessage now st userText (Except.ok r)).1.messages =
      st.messages ++
        [{ mtype := "human", content := userText, timestamp := now },
         { mtype := "ai", content := r.response, timestamp := ts }] := by
  constructor
  · rfl
  · simp [handleSendMessage, h]

/-- Witness for C8 at a concrete response carrying all four fields. -/
theorem c8_response_fields_witness :
    (handleSendMessage "t0" { messages := [], error := none } "show summary"
        (Except.ok { response := "Here is your summary.", intent := some "get_summary",
                     action_successful := some true, timestamp := some "t1" })).2 =
      some { intent := some "get_summary", actionSuccessful := some true } ∧
    (handleSendMessage "t0" { messages := [], error := none } "show summary"
        (Except.ok { response := "Here is your summary.", intent := some "get_summary",
                     action_successful := some true, timestamp := some "t1" })).1.messages =
      [{ mtype := "human", content := "show summary", timestamp := "t0" },
       { mtype := "ai", content := "Here is your summary.", timestamp := "t1" }] :=
  c8_response_fields "t0" "show summary" "t1" { messages := [], error := none }
    { response := "Here is your summary.", intent := some "get_summary",
      action_successful := some true, timestamp := some "t1" } rfl

/-- JavaScript `String.prototype.trim`: drop Unicode whitespace from both
ends of the string (implemented by structural recursion over the character
list so it evaluates on concrete inputs). -/
def strTrim (s : String) : String :=
  String.mk (((s.data.dropWhile Char.isWhitespace).reverse.dropWhile
    Char.isWhitespace).reverse)

/-- `handleSubmit` of `ChatInput` (`src/unnamed/part_000` lines 7-13): the
message is sent only when the trimmed input is non-empty and no request is
in flight; on send, the trimmed text is passed to `onSendMessage` and the
input is reset to the empty string, otherwise nothing is emitted and the
input keeps its value.  Returns (emitted message, input field afterwards). -/
def chatInputSubmit (message : String) (isLoading : Bool) :
    Option String × String :=
  if (strTrim message != "") && !isLoading then (some (strTrim message), "")
  else (none, message)

/-- The `disabled` condition of the send button (`src/unnamed/part_000`
line 36): `!message.trim() || isLoading`. -/
def sendButtonDisabled (message : String) (isLoading : Bool) : Bool :=
  (strTrim message == "") || isLoading

/-- C9: the chat input emits a message exactly when the trimmed input is
non-empty and no request is in flight; the emitted message is the trimmed
input, the field is reset to empty right after emitting, and the send
button is disabled exactly when a submit would emit nothing. -/
theorem c9_chat_input_submit (message : String) (isLoading : Bool) :
    ((chatInputSubmit message isLoading).1 ≠ none ↔
      strTrim message ≠ "" ∧ isLoading = false) ∧
    (∀ m, (chatInputSubmit message isLoading).1 = some m →
      m = strTrim message ∧ (chatInputSubmit message isLoading).2 = "") ∧
    (sendButtonDisabled message isLoading = true ↔
      (chatInputSubmit message isLoading).1 = none) := by
  by_cases htrim : strTrim message = ""
  · cases isLoading <;>
      simp [chatInputSubmit, sendButtonDisabled, htrim]
  · cases isLoading <;>
      simp [chatInputSubmit, sendButtonDisabled, htrim]

/-- Witness for C9: the padded input " hi " while idle emits the trimmed
"hi" and resets the field. -/
theorem c9_chat_input_submit_witness :
    (chatInputSubmit " hi " false).1 = some "hi" ∧
    "hi" = strTrim " hi " ∧ (chatInputSubmit " hi " false).2 = "" := by
  have hsome : (chatInputSubmit " hi " false).1 = some (strTrim " hi ") := by decide
  have h := (c9_chat_input_submit " hi " false).2.1 (strTrim " hi ") hsome
  have htrim : strTrim " hi " = "hi" := by decide
  exact ⟨by rw [hsome, htrim], by rw [htrim], h.2⟩

/-- The body of `GET /bills/upcoming/list` as `loadData` consumes it: the
`upcoming_bills` field may be absent (`none`). -/
structure UpcomingResp where
  upcoming_bills : Option (List Bill)
deriving DecidableEq, Repr

/-- The dashboard state set by `loadData`: `bills`, `upcomingBills`,
`summary`, `stats`.  The two bill collections are lists by construction,
which is the "always arrays" part of the claim. -/
structure DashData where
  bills : List Bill
  upcomingBills : List Bill
  summary : Option Summary
  stats : Option Stats
deriving DecidableEq, Repr

/-- `loadData` of `ResultsPanel.jsx` lines 35-71 applied to the four fetch
outcomes.  Each fetch carries its own `.catch`: a failed bills fetch yields
`[]`, a failed upcoming fetch yields `{ upcoming_bills: [] }`, failed
summary or stats yield `null`.  The bills payload is additionally guarded
by `Array.isArray` (`Option.none` models a non-array success payload), and
the upcoming list falls back to `[]` when the field is missing. -/
def loadData (rb : Except ApiError (Option (List Bill)))
    (ru : Except ApiError UpcomingResp)
    (rs : Except ApiError Summary)
    (rt : Except ApiError Stats) : DashData :=
  let billsData : Option (List Bill) :=
    match rb with
    | Except.ok v => v
    | Except.error _ => some []
  let upcomingData : UpcomingResp :=
    match ru with
    | Except.ok v => v
    | Except.error _ => { upcoming_bills := some [] }
  let summaryData : Option Summary :=
    match rs with
    | Except.ok v => some v
    | Except.error _ => none
  let statsData : Option Stats :=
    match rt with
    | Except.ok v => some v
    | Except.error _ => none
  { bills := billsData.getD [],
    upcomingBills := upcomingData.upcoming_bills.getD [],
    summary := summaryData,
    stats := statsData }

/-- C10: the dashboard load is failure-isolated: the loaded state is a
product of four independent per-endpoint values — each field is a function
of its own fetch outcome alone — and every failed fetch contributes its
neutral default (empty list for bills and upcoming, `none` for summary and
stats) while the other endpoints keep their values; `bills` and
`upcomingBills` are lists in every case. -/
theorem c10_failure_isolation (rb : Except ApiError (Option (List Bill)))
    (ru : Except ApiError UpcomingResp) (rs : Except ApiError Summary)
    (rt : Except ApiError Stats) :
    loadData rb ru rs rt =
      { bills :=
          (match rb with
           | Except.ok (some l) => l
           | Except.ok none => []
           | Except.error _ => []),
        upcomingBills :=
          (match ru with
           | Except.ok v => v.upcoming_bills.getD []
           | Except.error _ => []),
        summary :=
          (match rs with
           | Except.ok s => some s
           | Except.error _ => none),
        stats :=
          (match rt with
           | Except.ok t => some t
           | Except.error _ => none) } ∧
    (∀ e, rb = Except.error e → (loadData rb ru rs rt).bills = []) ∧
    (∀ e, ru = Except.error e → (loadData rb ru rs rt).upcomingBills = []) ∧
    (∀ e, rs = Except.error e → (loadData rb ru rs rt).summary = none) ∧
    (∀ e, rt = Except.error e → (loadData rb ru rs rt).stats = none) := by
  refine ⟨?_, ?_, ?_, ?_, ?_⟩
  · cases rb with
    | ok v => cases v <;> cases ru <;> cases rs <;> cases rt <;> rfl
    | error e1 => cases ru <;> cases rs <;> cases rt <;> rfl
  · rintro e rfl
    rfl
  · rintro e rfl
    rcases rb with v | e1
    · rcases v with l | _ <;> rfl
    · rfl
  · rintro e rfl
    rcases rb with v | e1
    · rcases v with l | _ <;> rfl
    · rfl
  · rintro e rfl
    rcases rb with v | e1
    · rcases v with l | _ <;> rfl
    · rfl

/-- Witness for C10: with the upcoming fetch failing and the other three
succeeding, the upcoming list is the neutral empty list while the other
fields carry their fetched values. -/
theorem c10_failure_isolation_witness :
    (loadData
        (Except.ok (some [{ name := "Electric", amount := 12000, dueDate := 15,
                            status := "pending", category := "Utilities" }]))
        (Except.error { code := none, responseStatus := some 500, diagnostic := "boom" })
        (Except.ok { total_amount := 12000, total_bills := 1,
                     category_breakdown := [("Utilities", 12000)] })
        (Except.ok { upcoming_bills_count := 1, overdue_bills_count := 0,
                     payment_completion_rate := 0 })).upcomingBills = [] ∧
    (loadData
        (Except.ok (some [{ name := "Electric", amount := 12000, dueDate := 15,
                            status := "pending", category := "Utilities" }]))
        (Except.error { code := none, responseStatus := some 500, diagnostic := "boom" })
        (Except.ok { total_amount := 12000, total_bills := 1,
                     category_breakdown := [("Utilities", 12000)] })
        (Except.ok { upcoming_bills_count := 1, overdue_bills_count := 0,
                     payment_completion_rate := 0 })).bills =
      [{ name := "Electric", amount := 12000, dueDate := 15,
         status := "pending", category := "Utilities" }] := by
  constructor
  · exact (c10_failure_isolation
      (Except.ok (some [{ name := "Electric", amount := 12000, dueDate := 15,
                          status := "pending", category := "Utilities" }]))
      (Except.error { code := none, responseStatus := some 500, diagnostic := "boom" })
      (Except.ok { total_amount := 12000, total_bills := 1,
                   category_breakdown := [("Utilities", 12000)] })
      (Except.ok { upcoming_bills_count := 1, overdue_bills_count := 0,
                   payment_completion_rate := 0 })).2.2.1 _ rfl
  · have h := (c10_failure_isolation
      (Except.ok (some [{ name := "Electric", amount := 12000, dueDate := 15,
                          status := "pending", category := "Utilities" }]))
      (Except.error { code := none, responseStatus := some 500, diagnostic := "boom" })
      (Except.ok { total_amount := 12000, total_bills := 1,
                   category_breakdown := [("Utilities", 12000)] })
      (Except.ok { upcoming_bills_count := 1, overdue_bills_count := 0,
                   payment_completion_rate := 0 })).1
    rw [h]
